import Mathlib

/-!
Shallow embedding of the two core components of the DreamSight AI frontend:

* the hexagram decoder of `frontend/components/HexagramVisual.tsx`
  (trigram tables, structure-string parsing, 6-line rendering), and
* the API gateway client (`ApiException`, header assembly, the fetch
  wrappers and the per-endpoint dispatch) together with the
  session-token sources (`lib/supabase.ts` `getAccessToken`, and the
  auth context's `getToken`).

Strings are modelled as Lean `String` / `List Char`; JavaScript `null`
and `undefined` become `Option`; thrown exceptions become explicit
outcome constructors.  Machine-level concerns (floats, real time) do
not occur in the modelled code.
-/

namespace DreamSight

/-- Embedding of the `TRIGRAM_LINES` table of `HexagramVisual.tsx`:
each of the eight trigram symbols maps to its 3 lines, bottom to top,
`true` = solid (Yang), `false` = broken (Yin).  Any other character is
absent from the table (`none`). -/
def TRIGRAM_LINES (c : Char) : Option (List Bool) :=
  if c = '☰' then some [true, true, true]
  else if c = '☷' then some [false, false, false]
  else if c = '☵' then some [false, true, false]
  else if c = '☲' then some [true, false, true]
  else if c = '☳' then some [false, false, true]
  else if c = '☴' then some [true, true, false]
  else if c = '☶' then some [false, false, true]
  else if c = '☱' then some [false, true, true]
  else none

/-- The character class `[☰☱☲☳☴☵☶☷]` of the symbol-scanning regex in
`parseTrigramSymbols`. -/
def isTrigramSymbol (c : Char) : Bool :=
  ['☰', '☱', '☲', '☳', '☴', '☵', '☶', '☷'].contains c

/-- Case canonicalisation used by the `/i` regex flag, restricted to the
characters that can ever fold-match the two marker words of this file
(ASCII letters and the Vietnamese letters Ư, Ợ, Ạ); every other
character is its own canonical form, which agrees with JavaScript
non-Unicode-mode canonicalisation on all characters relevant here. -/
def jsFold (c : Char) : Char :=
  if c = 'A' then 'a' else if c = 'B' then 'b' else if c = 'C' then 'c'
  else if c = 'D' then 'd' else if c = 'E' then 'e' else if c = 'F' then 'f'
  else if c = 'G' then 'g' else if c = 'H' then 'h' else if c = 'I' then 'i'
  else if c = 'J' then 'j' else if c = 'K' then 'k' else if c = 'L' then 'l'
  else if c = 'M' then 'm' else if c = 'N' then 'n' else if c = 'O' then 'o'
  else if c = 'P' then 'p' else if c = 'Q' then 'q' else if c = 'R' then 'r'
  else if c = 'S' then 's' else if c = 'T' then 't' else if c = 'U' then 'u'
  else if c = 'V' then 'v' else if c = 'W' then 'w' else if c = 'X' then 'x'
  else if c = 'Y' then 'y' else if c = 'Z' then 'z'
  else if c = 'Ư' then 'ư' else if c = 'Ợ' then 'ợ' else if c = 'Ạ' then 'ạ'
  else c

/-- The JavaScript regex class `\s` (whitespace). -/
def isSpaceChar (c : Char) : Bool :=
  c = ' ' || c = '\t' || c = '\n' || c = '\r' ||
  c = Char.ofNat 11 || c = Char.ofNat 12 || c = Char.ofNat 160 ||
  c = Char.ofNat 0x1680 || (0x2000 ≤ c.toNat && c.toNat ≤ 0x200a) ||
  c = Char.ofNat 0x2028 || c = Char.ofNat 0x2029 || c = Char.ofNat 0x202f ||
  c = Char.ofNat 0x205f || c = Char.ofNat 0x3000 || c = Char.ofNat 0xfeff

/-- The JavaScript regex class `\w` (non-Unicode mode): ASCII letters,
digits and underscore. -/
def isWordChar (c : Char) : Bool :=
  c.isAlpha || c.isDigit || c = '_'

/-- Match a literal marker word case-insensitively at the head of the
input, returning the rest of the input on success. -/
def dropMarker : List Char → List Char → Option (List Char)
  | [], l => some l
  | _ :: _, [] => none
  | p :: ps, c :: cs => if jsFold c = jsFold p then dropMarker ps cs else none

/-- Attempt the pattern `marker\s+(\w+)` anchored at the head of the
input, returning the `\w+` capture.  Since `\s` and `\w` are disjoint,
greedy matching with backtracking is equivalent to taking the maximal
run of whitespace (at least one) and then the maximal run of word
characters (at least one). -/
def matchMarkerAt (marker : List Char) (l : List Char) : Option (List Char) :=
  match dropMarker marker l with
  | none => none
  | some rest =>
    let rest2 := rest.dropWhile isSpaceChar
    if rest2.length = rest.length then none
    else
      let cap := rest2.takeWhile isWordChar
      if cap.isEmpty then none else some cap

/-- Leftmost match of `marker\s+(\w+)` in the input: the search of
`String.prototype.match` with a non-global regex. -/
def findMarkerCapture (marker : List Char) : List Char → Option (List Char)
  | [] => none
  | c :: cs =>
    match matchMarkerAt marker (c :: cs) with
    | some cap => some cap
    | none => findMarkerCapture marker cs

/-- The marker word of the regex `/thượng\s+(\w+)/i` ("upper"). -/
def upperMarker : List Char := ['t', 'h', 'ư', 'ợ', 'n', 'g']

/-- The marker word of the regex `/hạ\s+(\w+)/i` ("lower"). -/
def lowerMarker : List Char := ['h', 'ạ']

/-- Value held by one parsed slot: a canonical trigram symbol (the
string value of an own key of the `TRIGRAM_NAMES` object literal), or a
truthy value inherited from `Object.prototype` by the JavaScript
property lookup (tagged with the property name that reached it). -/
inductive SlotValue where
  | trigram (c : Char)
  | inherited (name : String)
  deriving Repr, DecidableEq

/-- Embedding of the lookup `TRIGRAM_NAMES[name] || null` on the
`TRIGRAM_NAMES` object literal.  A JavaScript property read walks the
prototype chain, so besides the own synonym keys the lookup can reach
the properties of `Object.prototype`; of those, exactly `constructor`
and `__proto__` are all-lowercase (hence reachable from a lower-cased
`\w+` capture) and both values are truthy, so `|| null` passes them
through.  Every other non-key name reads `undefined`, which `|| null`
turns into `null`. -/
def TRIGRAM_NAMES (name : String) : Option SlotValue :=
  if name = "càn" || name = "trời" || name = "heaven" then some (.trigram '☰')
  else if name = "khôn" || name = "đất" || name = "earth" then some (.trigram '☷')
  else if name = "khảm" || name = "nước" || name = "water" then some (.trigram '☵')
  else if name = "ly" || name = "lửa" || name = "fire" then some (.trigram '☲')
  else if name = "chấn" || name = "sấm" || name = "thunder" then some (.trigram '☳')
  else if name = "tốn" || name = "gió" || name = "wind" then some (.trigram '☴')
  else if name = "cấn" || name = "núi" || name = "mountain" then some (.trigram '☶')
  else if name = "đoài" || name = "đầm" || name = "lake" then some (.trigram '☱')
  else if name = "constructor" || name = "__proto__" then some (.inherited name)
  else none

/-- Source line `upperName ? (TRIGRAM_NAMES[upperName] || null) : null`:
lower-case the captured name word and look it up; an absent capture
yields `none`, otherwise the slot is whatever the prototype-chain
lookup produces. -/
def resolveName (cap : Option (List Char)) : Option SlotValue :=
  cap.bind fun w => TRIGRAM_NAMES (String.mk (w.map Char.toLower))

/-- Embedding of `parseTrigramSymbols` on a character list: scan for the
eight canonical symbols; with two or more matches take the first two,
otherwise fall back to the per-slot marker-word name matching. -/
def parseTrigramList (l : List Char) : Option SlotValue × Option SlotValue :=
  match l.filter isTrigramSymbol with
  | a :: b :: _ => (some (.trigram a), some (.trigram b))
  | _ =>
    (resolveName (findMarkerCapture upperMarker l),
     resolveName (findMarkerCapture lowerMarker l))

/-- Embedding of `parseTrigramSymbols` of `HexagramVisual.tsx`. -/
def parseTrigramSymbols (s : String) : Option SlotValue × Option SlotValue :=
  parseTrigramList s.toList

/-- Source lines `upper ? TRIGRAM_LINES[upper] : [true, true, true]`:
an unresolved slot defaults to the all-solid trigram.  (A resolved slot
always holds one of the eight table symbols, so the `getD` default on
the `some` branch is unreachable; it stands in for the undefined lookup
JavaScript would produce on a foreign character.) -/
def trigramLinesOrDefault : Option Char → List Bool
  | none => [true, true, true]
  | some c => (TRIGRAM_LINES c).getD [true, true, true]

/-- The `allLines` computation of `HexagramVisual`: upper trigram's
lines reversed, then lower trigram's lines reversed (§4.1's
`buildLineSequence`). -/
def buildLineSequence (upper lower : Option Char) : List Bool :=
  (trigramLinesOrDefault upper).reverse ++ (trigramLinesOrDefault lower).reverse

/-- Lines of one parsed slot, per `upper ? TRIGRAM_LINES[upper] :
[true, true, true]`: a `null` slot defaults to all-solid; a trigram
symbol reads its table row; an inherited slot value is truthy but its
table lookup is `undefined`, so the subsequent `.slice()` throws —
modelled as `none`. -/
def slotLines : Option SlotValue → Option (List Bool)
  | none => some [true, true, true]
  | some (.trigram c) => TRIGRAM_LINES c
  | some (.inherited _) => none

/-- Full decoder pipeline on a character list: parse, then render the
reversed upper lines followed by the reversed lower lines (`none` when
the render throws). -/
def allLinesList (l : List Char) : Option (List Bool) :=
  (slotLines (parseTrigramList l).1).bind fun ul =>
    (slotLines (parseTrigramList l).2).map fun ll =>
      ul.reverse ++ ll.reverse

/-- Full decoder pipeline of `HexagramVisual`: parse the structure
string and render the 6-line sequence. -/
def allLines (s : String) : Option (List Bool) :=
  allLinesList s.toList

/-- Two characters are identical or are the Thunder / Mountain pair, in
either order.  Two structure strings related pointwise by this differ
only by exchanging the Thunder symbol for the Mountain symbol. -/
def tmEquiv (c d : Char) : Prop :=
  c = d ∨ (c = '☳' ∧ d = '☶') ∨ (c = '☶' ∧ d = '☳')

/-- The `ApiError` interface of `types/index.ts`: required message,
required numeric status, optional detail. -/
structure ApiError where
  error : String
  status_code : Nat
  detail : Option String
  deriving Repr, DecidableEq

/-- JavaScript truthiness filter for an optional string: `undefined`
and the empty string are falsy. -/
def jsTruthy (s : Option String) : Option String :=
  match s with
  | some t => if t = "" then none else some t
  | none => none

/-- The `ApiException` class of the API client: message computed by
`error.error || error.detail || "Unknown error"`, stored status code
and detail. -/
structure ApiException where
  message : String
  statusCode : Nat
  detail : Option String
  deriving Repr, DecidableEq

/-- The `ApiException` constructor body. -/
def mkApiException (e : ApiError) : ApiException :=
  { message := (jsTruthy (some e.error)).getD ((jsTruthy e.detail).getD "Unknown error")
    statusCode := e.status_code
    detail := e.detail }

/-- `isApiKeyError`: a 403 Forbidden classification. -/
def ApiException.isApiKeyError (e : ApiException) : Bool :=
  e.statusCode == 403

/-- `isAuthError`: a 401 Unauthorized classification. -/
def ApiException.isAuthError (e : ApiException) : Bool :=
  e.statusCode == 401

/-- `isRateLimitError`: a 429 Too Many Requests classification. -/
def ApiException.isRateLimitError (e : ApiException) : Bool :=
  e.statusCode == 429

/-- `buildBaseHeaders`: always `Content-Type: application/json`, plus
`X-API-Key` when the configured client key is non-empty (JavaScript
truthiness of the `API_SECRET_KEY` string). -/
def buildBaseHeaders (apiKey : String) : List (String × String) :=
  [("Content-Type", "application/json")] ++
    (if apiKey ≠ "" then [("X-API-Key", apiKey)] else [])

/-- Header assembly of `apiFetchWithAuth`: base headers, plus
`Authorization: Bearer <token>` guarded by the JavaScript truthiness
spread `...(token && \x7b ... \x7d)` — a `null` or empty-string token
attaches no header.  (The repository's call sites pass no extra
`options.headers`, so the trailing spread is empty and omitted.) -/
def buildAuthHeaders (apiKey : String) (token : Option String) : List (String × String) :=
  buildBaseHeaders apiKey ++
    (match token with
     | some t => if t ≠ "" then [("Authorization", "Bearer " ++ t)] else []
     | none => [])

/-- The fields of a parsed JSON error body that the client reads
(`json.detail`, `json.message`); each may be absent. -/
structure JsonBody where
  detail : Option String
  message : Option String
  deriving Repr, DecidableEq

/-- An HTTP response as the wrappers observe it: numeric status, status
text, and the result of `response.json()` — `none` when the body fails
to parse as JSON (the promise rejects). -/
structure HttpResponse where
  status : Nat
  statusText : String
  jsonBody : Option JsonBody
  deriving Repr, DecidableEq

/-- `response.ok` of the Fetch API: status in the inclusive range
200–299. -/
def respOk (status : Nat) : Bool :=
  200 ≤ status && status ≤ 299

/-- Observable outcome of one wrapper call: a returned value, a thrown
`ApiException`, or some other uncaught exception (e.g. a JSON parse
rejection outside any try/catch). -/
inductive FetchOutcome (α : Type) where
  | success (v : α)
  | apiError (e : ApiException)
  | thrown (msg : String)
  deriving Repr, DecidableEq

/-- The error-body handling shared by both wrappers: on a parsed JSON
body, message is `json.detail || json.message || "Request failed"` and
`detail` is copied verbatim; on a parse failure, the message is
synthesized from the numeric status and status text.  Either way
`status_code` is the response status. -/
def buildErrorData (resp : HttpResponse) : ApiError :=
  match resp.jsonBody with
  | some j =>
    { error := (jsTruthy j.detail).getD ((jsTruthy j.message).getD "Request failed")
      status_code := resp.status
      detail := j.detail }
  | none =>
    { error := "HTTP " ++ toString resp.status ++ ": " ++ resp.statusText
      status_code := resp.status
      detail := none }

/-- Embedding of `apiFetch`'s response handling: on `response.ok`,
return `response.json()` (whose rejection on a 2xx unparsable body is
uncaught); otherwise build the error data inside try/catch and throw an
`ApiException`. -/
def apiFetchResult (resp : HttpResponse) : FetchOutcome JsonBody :=
  if respOk resp.status then
    match resp.jsonBody with
    | some j => .success j
    | none => .thrown "SyntaxError: JSON parse"
  else
    .apiError (mkApiException (buildErrorData resp))

/-- Embedding of `apiFetchWithAuth`'s response handling: identical to
`apiFetchResult` except for console diagnostics, which do not change
the thrown error's shape. -/
def apiFetchWithAuthResult (resp : HttpResponse) : FetchOutcome JsonBody :=
  if respOk resp.status then
    match resp.jsonBody with
    | some j => .success j
    | none => .thrown "SyntaxError: JSON parse"
  else
    .apiError (mkApiException (buildErrorData resp))

/-- Embedding of `dreamApi.healthCheck`: a bare `fetch` followed by
`response.json()` with no `response.ok` check — the parsed body is
returned whatever the status, and a parse rejection is uncaught. -/
def healthCheckResult (resp : HttpResponse) : FetchOutcome JsonBody :=
  match resp.jsonBody with
  | some j => .success j
  | none => .thrown "SyntaxError: JSON parse"

/-- The API surface exported as `dreamApi`. -/
inductive ApiCall where
  | interpretDream
  | analyzeDream
  | getDreamHistory
  | searchSymbols
  | getCommonSymbols
  | healthCheck
  | analyzeTriangle
  deriving Repr, DecidableEq

/-- Which response handling each exported call uses: `analyzeDream` and
`getDreamHistory` go through `apiFetchWithAuth`, `healthCheck` performs
the bare fetch, everything else goes through `apiFetch`. -/
def dispatch : ApiCall → HttpResponse → FetchOutcome JsonBody
  | .interpretDream => apiFetchResult
  | .analyzeDream => apiFetchWithAuthResult
  | .getDreamHistory => apiFetchWithAuthResult
  | .searchSymbols => apiFetchResult
  | .getCommonSymbols => apiFetchResult
  | .healthCheck => healthCheckResult
  | .analyzeTriangle => apiFetchResult

/-- Outcome of `supabase.auth.getSession()` as `lib/supabase.ts`'s
`getAccessToken` observes it: the call throws, or it returns with
`data.session?.access_token` projected to an optional token. -/
inductive TokenLookup where
  | failure
  | ok (token : Option String)
  deriving Repr, DecidableEq

/-- Embedding of `getAccessToken` of `lib/supabase.ts`: the session's
access token when present, `null` when there is no session, and `null`
from the catch block when the lookup throws. -/
def getAccessToken : TokenLookup → Option String
  | .failure => none
  | .ok t => t

/-- A session object as `AuthProvider.getToken` reads it: the access
token and the optional numeric `expires_at` (seconds since epoch). -/
structure SessionData where
  access_token : String
  expires_at : Option Int
  deriving Repr, DecidableEq

/-- Outcome of one supabase session call (`getSession` or
`refreshSession`): an error (returned or thrown), or a possibly-null
session. -/
inductive SessionFetch where
  | failure
  | ok (s : Option SessionData)
  deriving Repr, DecidableEq

/-- Embedding of `AuthProvider.getToken` of the auth context: returns
the token (or `none`) paired with whether `refreshSession` was invoked.
The guard is the JavaScript condition
`expiresAt && expiresAt - now < 60`, whose first conjunct is number
truthiness: an absent or zero `expires_at` never triggers a refresh. -/
def getToken (gs : SessionFetch) (refresh : SessionFetch) (now : Int) :
    Option String × Bool :=
  match gs with
  | .failure => (none, false)
  | .ok none => (none, false)
  | .ok (some s) =>
    let expiringSoon : Bool :=
      match s.expires_at with
      | some e => e != 0 && decide (e - now < 60)
      | none => false
    if expiringSoon then
      match refresh with
      | .failure => (none, true)
      | .ok none => (none, true)
      | .ok (some s2) => (some s2.access_token, true)
    else
      (some s.access_token, false)

/-- The token the refresh branch of `getToken` produces: the refreshed
session's access token, or `null` when the refresh errors or returns no
session. -/
def refreshedToken : SessionFetch → Option String
  | .failure => none
  | .ok none => none
  | .ok (some s) => some s.access_token

/-- Every entry of the `TRIGRAM_LINES` table is a triple. -/
theorem TRIGRAM_LINES_length {c : Char} {tl : List Bool}
    (h : TRIGRAM_LINES c = some tl) : tl.length = 3 := by
  unfold TRIGRAM_LINES at h
  split_ifs at h <;>
    first
      | exact Option.noConfusion h
      | (injection h with h; subst h; rfl)

/-- C1: for resolved upper and lower trigram references the rendered
line sequence has exactly 6 entries, its first 3 equal the reverse of
the upper trigram's 3-line tuple and its last 3 the reverse of the
lower trigram's; an unresolved slot defaults to all-solid, so with both
slots unresolved all 6 entries are solid. -/
theorem buildLineSequence_spec (u l : Char) (ul ll : List Bool)
    (hu : TRIGRAM_LINES u = some ul) (hl : TRIGRAM_LINES l = some ll) :
    (buildLineSequence (some u) (some l)).length = 6 ∧
    (buildLineSequence (some u) (some l)).take 3 = ul.reverse ∧
    (buildLineSequence (some u) (some l)).drop 3 = ll.reverse ∧
    buildLineSequence none none = List.replicate 6 true := by
  have h3u : ul.length = 3 := TRIGRAM_LINES_length hu
  have h3l : ll.length = 3 := TRIGRAM_LINES_length hl
  have hb : buildLineSequence (some u) (some l) = ul.reverse ++ ll.reverse := by
    simp [buildLineSequence, trigramLinesOrDefault, hu, hl]
  refine ⟨?_, ?_, ?_, by decide⟩
  · rw [hb]
    simp [h3u, h3l]
  · rw [hb]
    exact List.take_left' (by simp [h3u])
  · rw [hb]
    exact List.drop_left' (by simp [h3u])

/-- C1 witness: Water over Heaven renders the 6 concrete lines. -/
theorem buildLineSequence_spec_witness :
    (buildLineSequence (some '☵') (some '☰')).length = 6 ∧
    (buildLineSequence (some '☵') (some '☰')).take 3 = [false, true, false].reverse ∧
    (buildLineSequence (some '☵') (some '☰')).drop 3 = [true, true, true].reverse ∧
    buildLineSequence none none = List.replicate 6 true :=
  buildLineSequence_spec '☵' '☰' [false, true, false] [true, true, true]
    (by decide) (by decide)

/-- C2: with two or more canonical symbols in the input, the first in
order of appearance becomes `upper`, the second `lower`, and any later
symbols are ignored (the result does not depend on them). -/
theorem parse_selects_first_two_symbols (s : String) (a b : Char) (rest : List Char)
    (h : s.toList.filter isTrigramSymbol = a :: b :: rest) :
    parseTrigramSymbols s = (some (.trigram a), some (.trigram b)) := by
  simp only [parseTrigramSymbols, parseTrigramList, h]

/-- C2 witness: Earth, Water, Fire in that order parse to upper Earth
and lower Water; the Fire symbol is ignored. -/
theorem parse_selects_first_two_symbols_witness :
    parseTrigramSymbols "☷☵☲" = (some (.trigram '☷'), some (.trigram '☵')) :=
  parse_selects_first_two_symbols "☷☵☲" '☷' '☵' ['☲'] (by decide)

/-- C3 counterexample: the capture `constructor` is not in the synonym
table, yet the prototype-chain lookup returns the inherited truthy
`Object.prototype.constructor`, so the upper slot of
"Thượng constructor" (which contains no canonical symbols) is not
`null`. -/
theorem inherited_name_slot_not_null :
    ("Thượng constructor".toList.filter isTrigramSymbol).length < 2 ∧
    (parseTrigramSymbols "Thượng constructor").1 = some (.inherited "constructor") := by
  exact ⟨by decide, by decide⟩

/-- C3 amended: with fewer than two canonical symbols, parsing resolves
each slot independently from its marker-word capture via the JavaScript
lookup on the synonym table: an absent marker phrase yields `none`, and
a present capture yields exactly what the prototype-chain lookup
`TRIGRAM_NAMES[word] || null` produces — `none` for any name word that
is neither a table key nor one of the inherited all-lowercase
`Object.prototype` properties (`constructor`, `__proto__`), which pass
through truthy instead of `null`; parsing itself never throws.  In
particular an input with only an upper-marker phrase naming Fire
resolves to upper Fire, lower `none`. -/
theorem parse_name_fallback (s : String)
    (h : (s.toList.filter isTrigramSymbol).length < 2) :
    ((findMarkerCapture upperMarker s.toList = none → (parseTrigramSymbols s).1 = none) ∧
     (∀ w, findMarkerCapture upperMarker s.toList = some w →
        (parseTrigramSymbols s).1 = TRIGRAM_NAMES (String.mk (w.map Char.toLower))) ∧
     (findMarkerCapture lowerMarker s.toList = none → (parseTrigramSymbols s).2 = none) ∧
     (∀ w, findMarkerCapture lowerMarker s.toList = some w →
        (parseTrigramSymbols s).2 = TRIGRAM_NAMES (String.mk (w.map Char.toLower)))) ∧
    parseTrigramSymbols "Thượng fire" = (some (.trigram '☲'), none) := by
  have hfall : parseTrigramSymbols s =
      (resolveName (findMarkerCapture upperMarker s.toList),
       resolveName (findMarkerCapture lowerMarker s.toList)) := by
    unfold parseTrigramSymbols parseTrigramList
    rcases hf : s.toList.filter isTrigramSymbol with _ | ⟨a, _ | ⟨b, rest⟩⟩ <;>
      simp_all
    exfalso
    omega
  refine ⟨⟨?_, ?_, ?_, ?_⟩, by decide⟩
  · intro hn
    rw [hfall]
    unfold resolveName
    rw [hn]
    rfl
  · intro w hw
    rw [hfall]
    unfold resolveName
    rw [hw]
    rfl
  · intro hn
    rw [hfall]
    unfold resolveName
    rw [hn]
    rfl
  · intro w hw
    rw [hfall]
    unfold resolveName
    rw [hw]
    rfl

/-- C3 witness: the Fire example input has no canonical symbols and
parses to upper Fire, lower unresolved. -/
theorem parse_name_fallback_witness :
    ("Thượng fire".toList.filter isTrigramSymbol).length < 2 ∧
    parseTrigramSymbols "Thượng fire" = (some (.trigram '☲'), none) :=
  ⟨by decide, (parse_name_fallback "Thượng fire" (by decide)).2⟩

/-- An exception built from any response carries that response's
status. -/
theorem mkApiException_statusCode (resp : HttpResponse) :
    (mkApiException (buildErrorData resp)).statusCode = resp.status := by
  cases hb : resp.jsonBody <;> simp [mkApiException, buildErrorData, hb]

/-- C5 counterexample: the truthiness spread `...(token && \x7b ... \x7d)`
treats an empty-string token as falsy, so a request made while the
token source returns the empty string attaches no `Authorization`
header even though a token was returned. -/
theorem empty_token_no_auth_header :
    getAccessToken (.ok (some "")) = some "" ∧
    "Authorization" ∉ (buildAuthHeaders "k" (some "")).map Prod.fst := by
  exact ⟨rfl, by decide⟩

/-- C5 amended: with a `null` token — or an empty-string token, which
the JavaScript truthiness guard treats the same — the assembled headers
of an authenticated request contain no `Authorization` entry but do
contain the JSON content type and, when the client key is non-empty,
`X-API-Key`; with a non-empty token present,
`Authorization: Bearer <token>` is attached. -/
theorem auth_headers_assembly (key : String) (token : Option String) :
    (token = none → "Authorization" ∉ (buildAuthHeaders key token).map Prod.fst) ∧
    (token = some "" → "Authorization" ∉ (buildAuthHeaders key token).map Prod.fst) ∧
    ("Content-Type", "application/json") ∈ buildAuthHeaders key token ∧
    (key ≠ "" → ("X-API-Key", key) ∈ buildAuthHeaders key token) ∧
    (∀ t, token = some t → t ≠ "" →
      ("Authorization", "Bearer " ++ t) ∈ buildAuthHeaders key token) := by
  refine ⟨?_, ?_, ?_, ?_, ?_⟩
  · rintro rfl
    by_cases hk : key = "" <;>
      simp [buildAuthHeaders, buildBaseHeaders, hk]
  · rintro rfl
    by_cases hk : key = "" <;>
      simp [buildAuthHeaders, buildBaseHeaders, hk]
  · rcases token with _ | t
    · by_cases hk : key = "" <;> simp [buildAuthHeaders, buildBaseHeaders, hk]
    · by_cases hk : key = "" <;> by_cases ht : t = "" <;>
        simp [buildAuthHeaders, buildBaseHeaders, hk, ht]
  · intro hk
    rcases token with _ | t
    · simp [buildAuthHeaders, buildBaseHeaders, hk]
    · by_cases ht : t = "" <;> simp [buildAuthHeaders, buildBaseHeaders, hk, ht]
  · rintro t rfl ht
    by_cases hk : key = "" <;> simp [buildAuthHeaders, buildBaseHeaders, hk, ht]

/-- C5 amended witness: concrete header lists for a configured key with
and without a token. -/
theorem auth_headers_assembly_witness :
    "Authorization" ∉ (buildAuthHeaders "k" none).map Prod.fst ∧
    "Authorization" ∉ (buildAuthHeaders "k" (some "")).map Prod.fst ∧
    ("Content-Type", "application/json") ∈ buildAuthHeaders "k" none ∧
    ("X-API-Key", "k") ∈ buildAuthHeaders "k" none ∧
    ("Authorization", "Bearer " ++ "t") ∈ buildAuthHeaders "k" (some "t") :=
  ⟨(auth_headers_assembly "k" none).1 rfl,
   (auth_headers_assembly "k" (some "")).2.1 rfl,
   (auth_headers_assembly "k" none).2.2.1,
   (auth_headers_assembly "k" none).2.2.2.1 (by decide),
   (auth_headers_assembly "k" (some "t")).2.2.2.2 "t" rfl (by decide)⟩

/-- C6: the three `ApiException` classifiers depend only on the stored
status code and are mutually exclusive; an exception built from a 403
(resp. 429, 401) response satisfies exactly the forbidden (resp.
rate-limit, auth) predicate. -/
theorem api_error_classifiers (resp : HttpResponse) (e1 e2 : ApiException) :
    (e1.statusCode = e2.statusCode →
      e1.isApiKeyError = e2.isApiKeyError ∧ e1.isAuthError = e2.isAuthError ∧
        e1.isRateLimitError = e2.isRateLimitError) ∧
    (¬(e1.isApiKeyError = true ∧ e1.isAuthError = true)) ∧
    (¬(e1.isApiKeyError = true ∧ e1.isRateLimitError = true)) ∧
    (¬(e1.isAuthError = true ∧ e1.isRateLimitError = true)) ∧
    (resp.status = 403 →
      (mkApiException (buildErrorData resp)).isApiKeyError = true ∧
      (mkApiException (buildErrorData resp)).isAuthError = false ∧
      (mkApiException (buildErrorData resp)).isRateLimitError = false) ∧
    (resp.status = 429 →
      (mkApiException (buildErrorData resp)).isRateLimitError = true ∧
      (mkApiException (buildErrorData resp)).isApiKeyError = false ∧
      (mkApiException (buildErrorData resp)).isAuthError = false) ∧
    (resp.status = 401 →
      (mkApiException (buildErrorData resp)).isAuthError = true ∧
      (mkApiException (buildErrorData resp)).isApiKeyError = false ∧
      (mkApiException (buildErrorData resp)).isRateLimitError = false) := by
  have hsc := mkApiException_statusCode resp
  refine ⟨?_, ?_, ?_, ?_, ?_, ?_, ?_⟩ <;>
    simp_all [ApiException.isApiKeyError, ApiException.isAuthError,
      ApiException.isRateLimitError]

/-- C6 witness: concrete 403, 429 and 401 responses classified. -/
theorem api_error_classifiers_witness :
    ((mkApiException (buildErrorData ⟨403, "Forbidden", none⟩)).isApiKeyError = true ∧
      (mkApiException (buildErrorData ⟨403, "Forbidden", none⟩)).isAuthError = false ∧
      (mkApiException (buildErrorData ⟨403, "Forbidden", none⟩)).isRateLimitError = false) ∧
    ((mkApiException (buildErrorData ⟨429, "Too Many Requests", none⟩)).isRateLimitError = true ∧
      (mkApiException (buildErrorData ⟨429, "Too Many Requests", none⟩)).isApiKeyError = false ∧
      (mkApiException (buildErrorData ⟨429, "Too Many Requests", none⟩)).isAuthError = false) ∧
    ((mkApiException (buildErrorData ⟨401, "Unauthorized", none⟩)).isAuthError = true ∧
      (mkApiException (buildErrorData ⟨401, "Unauthorized", none⟩)).isApiKeyError = false ∧
      (mkApiException (buildErrorData ⟨401, "Unauthorized", none⟩)).isRateLimitError = false) :=
  ⟨(api_error_classifiers ⟨403, "Forbidden", none⟩
      (mkApiException (buildErrorData ⟨403, "Forbidden", none⟩))
      (mkApiException (buildErrorData ⟨403, "Forbidden", none⟩))).2.2.2.2.1 rfl,
   (api_error_classifiers ⟨429, "Too Many Requests", none⟩
      (mkApiException (buildErrorData ⟨429, "Too Many Requests", none⟩))
      (mkApiException (buildErrorData ⟨429, "Too Many Requests", none⟩))).2.2.2.2.2.1 rfl,
   (api_error_classifiers ⟨401, "Unauthorized", none⟩
      (mkApiException (buildErrorData ⟨401, "Unauthorized", none⟩))
      (mkApiException (buildErrorData ⟨401, "Unauthorized", none⟩))).2.2.2.2.2.2 rfl⟩

/-- C7: a non-2xx response whose body fails to parse as JSON makes both
wrappers throw the `ApiException` whose message is synthesized from the
numeric status and status text and whose status code is the response
status — never an uncaught parse exception. -/
theorem malformed_error_body (resp : HttpResponse)
    (hok : respOk resp.status = false) (hbody : resp.jsonBody = none) :
    apiFetchResult resp =
      .apiError ⟨"HTTP " ++ toString resp.status ++ ": " ++ resp.statusText,
        resp.status, none⟩ ∧
    apiFetchWithAuthResult resp =
      .apiError ⟨"HTTP " ++ toString resp.status ++ ": " ++ resp.statusText,
        resp.status, none⟩ := by
  have hmsg : ("HTTP " ++ toString resp.status ++ ": " ++ resp.statusText) ≠ "" := by
    intro hcontra
    have hlen := congrArg String.length hcontra
    simp [String.length_append] at hlen
    exact absurd hlen.1.1.1 (by decide)
  constructor <;>
    simp [apiFetchResult, apiFetchWithAuthResult, hok, hbody, mkApiException,
      buildErrorData, jsTruthy, hmsg]

/-- C7 witness: a 500 response with an unparsable body raises the
status-text-derived exception from both wrappers. -/
theorem malformed_error_body_witness :
    apiFetchResult ⟨500, "Internal Server Error", none⟩ =
      .apiError ⟨"HTTP " ++ toString 500 ++ ": " ++ "Internal Server Error", 500, none⟩ ∧
    apiFetchWithAuthResult ⟨500, "Internal Server Error", none⟩ =
      .apiError ⟨"HTTP " ++ toString 500 ++ ": " ++ "Internal Server Error", 500, none⟩ :=
  malformed_error_body ⟨500, "Internal Server Error", none⟩ rfl rfl

/-- C8 counterexample: `healthCheck` performs no `response.ok` check, so
a 500 response with a JSON body is returned as a success value — a
non-2xx response swallowed by an exposed API call. -/
theorem healthCheck_swallows_non_2xx :
    respOk 500 = false ∧
    dispatch .healthCheck ⟨500, "Internal Server Error", some ⟨none, none⟩⟩ =
      .success ⟨none, none⟩ := by
  exact ⟨rfl, rfl⟩

/-- C8 amended: every exposed API call except `healthCheck` never
returns a value on a non-2xx response and raises a structured error
carrying the resolved status code. -/
theorem non_2xx_raises_structured_error (c : ApiCall) (resp : HttpResponse)
    (hc : c ≠ .healthCheck) (hok : respOk resp.status = false) :
    (∀ v, dispatch c resp ≠ .success v) ∧
    (∃ e, dispatch c resp = .apiError e ∧ e.statusCode = resp.status) := by
  have hsc := mkApiException_statusCode resp
  cases c <;>
    simp_all [dispatch, apiFetchResult, apiFetchWithAuthResult]

/-- C8 amended witness: a 500 response on `interpretDream` yields a
structured error with status 500. -/
theorem non_2xx_raises_structured_error_witness :
    (∀ v, dispatch .interpretDream ⟨500, "Internal Server Error", none⟩ ≠ .success v) ∧
    (∃ e, dispatch .interpretDream ⟨500, "Internal Server Error", none⟩ = .apiError e ∧
      e.statusCode = 500) :=
  non_2xx_raises_structured_error .interpretDream ⟨500, "Internal Server Error", none⟩
    (by decide) rfl

/-- C9 counterexample: a session whose declared expiry is the epoch
instant 0 is less than 60 seconds away at time 50, yet `getToken`
returns the current token without refreshing, because the JavaScript
guard `expiresAt && ...` treats the number 0 as falsy. -/
theorem zero_expiry_skips_refresh :
    (0 : Int) - 50 < 60 ∧
    getToken (.ok (some ⟨"tok", some 0⟩)) (.ok (some ⟨"fresh", some 999999⟩)) 50 =
      (some "tok", false) := by
  exact ⟨by decide, rfl⟩

/-- C9 amended: for an active session with a nonzero declared expiry
under 60 seconds away `getToken` refreshes and returns the refreshed
token (or `null` on refresh failure); with 60 or more seconds remaining
it returns the current token without refreshing (likewise when the
expiry is absent); with no active session (or a failing lookup) it
returns `null` without refreshing. -/
theorem getToken_refresh_policy (s : SessionData) (refresh : SessionFetch)
    (now e : Int) :
    (s.expires_at = some e → e ≠ 0 → e - now < 60 →
      getToken (.ok (some s)) refresh now = (refreshedToken refresh, true)) ∧
    (s.expires_at = some e → e - now ≥ 60 →
      getToken (.ok (some s)) refresh now = (some s.access_token, false)) ∧
    (s.expires_at = some 0 →
      getToken (.ok (some s)) refresh now = (some s.access_token, false)) ∧
    (s.expires_at = none →
      getToken (.ok (some s)) refresh now = (some s.access_token, false)) ∧
    getToken (.ok none) refresh now = (none, false) ∧
    getToken .failure refresh now = (none, false) := by
  refine ⟨?_, ?_, ?_, ?_, rfl, rfl⟩
  · intro hs he hlt
    have hguard : (e != 0 && decide (e - now < 60)) = true := by
      simp [he, hlt]
    cases refresh with
    | failure => simp [getToken, hs, hguard, refreshedToken]
    | ok so => cases so <;> simp [getToken, hs, hguard, refreshedToken]
  · intro hs hge
    have hguard : (e != 0 && decide (e - now < 60)) = false := by
      simp
      omega
    simp [getToken, hs, hguard]
  · intro hs
    simp [getToken, hs]
  · intro hs
    simp [getToken, hs]

/-- C9 amended witness: nonzero expiry 10 seconds away refreshes to the
new token; 100 seconds away keeps the current token; a zero expiry
keeps the current token even 50 seconds past it. -/
theorem getToken_refresh_policy_witness :
    getToken (.ok (some ⟨"tok", some 100⟩)) (.ok (some ⟨"fresh", some 999⟩)) 90 =
      (some "fresh", true) ∧
    getToken (.ok (some ⟨"tok", some 100⟩)) (.ok (some ⟨"fresh", some 999⟩)) 0 =
      (some "tok", false) ∧
    getToken (.ok (some ⟨"tok", some 0⟩)) (.ok (some ⟨"fresh", some 999⟩)) 50 =
      (some "tok", false) :=
  ⟨(getToken_refresh_policy ⟨"tok", some 100⟩ (.ok (some ⟨"fresh", some 999⟩)) 90 100).1
      rfl (by decide) (by decide),
   (getToken_refresh_policy ⟨"tok", some 100⟩ (.ok (some ⟨"fresh", some 999⟩)) 0 100).2.1
      rfl (by decide),
   (getToken_refresh_policy ⟨"tok", some 0⟩ (.ok (some ⟨"fresh", some 999⟩)) 50 0).2.2.1
      rfl⟩

/-- C10: the session-token source never throws — a failing lookup maps
to `null` and a successful one to its token — so an authenticated
request degrades to headers without `Authorization` (the call still
proceeds with the JSON content type) rather than failing first. -/
theorem getAccessToken_total (o : TokenLookup) (key : String) :
    ("Content-Type", "application/json") ∈ buildAuthHeaders key (getAccessToken o) ∧
    (∀ t, o = .ok t → getAccessToken o = t) ∧
    (o = .failure →
      getAccessToken o = none ∧
      "Authorization" ∉ (buildAuthHeaders key (getAccessToken o)).map Prod.fst) := by
  refine ⟨?_, ?_, ?_⟩
  · by_cases hk : key = "" <;>
      cases o <;> simp [buildAuthHeaders, buildBaseHeaders, getAccessToken, hk]
  · rintro t rfl
    rfl
  · rintro rfl
    refine ⟨rfl, ?_⟩
    by_cases hk : key = "" <;>
      simp [buildAuthHeaders, buildBaseHeaders, getAccessToken, hk]

/-- C10 witness: a throwing lookup yields a `null` token and headers
without `Authorization`. -/
theorem getAccessToken_total_witness :
    getAccessToken .failure = none ∧
    "Authorization" ∉ (buildAuthHeaders "k" (getAccessToken .failure)).map Prod.fst :=
  (getAccessToken_total .failure "k").2.2 rfl

/-- `tmEquiv`-related characters are both trigram symbols or neither. -/
theorem tmEquiv_isTrigramSymbol {c d : Char} (h : tmEquiv c d) :
    isTrigramSymbol c = isTrigramSymbol d := by
  rcases h with rfl | ⟨rfl, rfl⟩ | ⟨rfl, rfl⟩ <;> rfl

/-- `tmEquiv`-related characters agree on the whitespace class. -/
theorem tmEquiv_isSpaceChar {c d : Char} (h : tmEquiv c d) :
    isSpaceChar c = isSpaceChar d := by
  rcases h with rfl | ⟨rfl, rfl⟩ | ⟨rfl, rfl⟩ <;> rfl

/-- `tmEquiv`-related characters agree on the word class. -/
theorem tmEquiv_isWordChar {c d : Char} (h : tmEquiv c d) :
    isWordChar c = isWordChar d := by
  rcases h with rfl | ⟨rfl, rfl⟩ | ⟨rfl, rfl⟩ <;> rfl

/-- A word character related by `tmEquiv` is equal (the two trigram
symbols are not word characters). -/
theorem tmEquiv_eq_of_isWordChar {c d : Char} (h : tmEquiv c d)
    (hw : isWordChar c = true) : c = d := by
  rcases h with rfl | ⟨rfl, rfl⟩ | ⟨rfl, rfl⟩
  · rfl
  · exact absurd hw (by decide)
  · exact absurd hw (by decide)

/-- `tmEquiv`-related characters fold-match the same marker characters,
provided the marker character folds to neither trigram symbol. -/
theorem tmEquiv_jsFold_iff {c d p : Char} (h : tmEquiv c d)
    (hp1 : jsFold p ≠ '☳') (hp2 : jsFold p ≠ '☶') :
    (jsFold c = jsFold p ↔ jsFold d = jsFold p) := by
  rcases h with rfl | ⟨rfl, rfl⟩ | ⟨rfl, rfl⟩
  · exact Iff.rfl
  · rw [show jsFold '☳' = '☳' from rfl, show jsFold '☶' = '☶' from rfl]
    exact ⟨fun hh => absurd hh.symm hp1, fun hh => absurd hh.symm hp2⟩
  · rw [show jsFold '☶' = '☶' from rfl, show jsFold '☳' = '☳' from rfl]
    exact ⟨fun hh => absurd hh.symm hp2, fun hh => absurd hh.symm hp1⟩

/-- Matching a marker word on `tmEquiv`-related inputs fails on both or
consumes it on both, leaving `tmEquiv`-related remainders. -/
theorem dropMarker_congr (m : List Char) :
    (∀ p ∈ m, jsFold p ≠ '☳' ∧ jsFold p ≠ '☶') →
    ∀ l1 l2, List.Forall₂ tmEquiv l1 l2 →
      (dropMarker m l1 = none ∧ dropMarker m l2 = none) ∨
      (∃ r1 r2, dropMarker m l1 = some r1 ∧ dropMarker m l2 = some r2 ∧
        List.Forall₂ tmEquiv r1 r2) := by
  induction m with
  | nil =>
    intro _ l1 l2 h
    exact Or.inr ⟨l1, l2, rfl, rfl, h⟩
  | cons p ps ih =>
    intro hm l1 l2 h
    cases h with
    | nil => exact Or.inl ⟨rfl, rfl⟩
    | @cons c d cs ds hcd htail =>
      have hp := hm p (List.mem_cons_self p ps)
      by_cases hcp : jsFold c = jsFold p
      · have hdp : jsFold d = jsFold p :=
          (tmEquiv_jsFold_iff hcd hp.1 hp.2).mp hcp
        have hrec := ih (fun q hq => hm q (List.mem_cons_of_mem p hq)) cs ds htail
        simpa [dropMarker, hcp, hdp] using hrec
      · have hdp : ¬jsFold d = jsFold p := fun hh =>
          hcp ((tmEquiv_jsFold_iff hcd hp.1 hp.2).mpr hh)
        exact Or.inl (by simp [dropMarker, hcp, hdp])

/-- Dropping leading whitespace preserves `tmEquiv`-relatedness. -/
theorem dropWhile_space_congr {l1 l2 : List Char}
    (h : List.Forall₂ tmEquiv l1 l2) :
    List.Forall₂ tmEquiv (l1.dropWhile isSpaceChar) (l2.dropWhile isSpaceChar) := by
  induction h with
  | nil => exact List.Forall₂.nil
  | @cons c d cs ds hcd htail ih =>
    have hs := tmEquiv_isSpaceChar hcd
    by_cases hc : isSpaceChar c = true
    · have hd : isSpaceChar d = true := by rw [← hs]; exact hc
      simpa [List.dropWhile_cons, hc, hd] using ih
    · have hd : ¬isSpaceChar d = true := by rw [← hs]; exact hc
      simpa [List.dropWhile_cons, hc, hd] using List.Forall₂.cons hcd htail

/-- The `\w+` capture is identical on `tmEquiv`-related inputs. -/
theorem takeWhile_word_congr {l1 l2 : List Char}
    (h : List.Forall₂ tmEquiv l1 l2) :
    l1.takeWhile isWordChar = l2.takeWhile isWordChar := by
  induction h with
  | nil => rfl
  | @cons c d cs ds hcd htail ih =>
    by_cases hc : isWordChar c = true
    · have hcd' : c = d := tmEquiv_eq_of_isWordChar hcd hc
      subst hcd'
      simp [List.takeWhile_cons, hc, ih]
    · have hd : ¬isWordChar d = true := by rw [← tmEquiv_isWordChar hcd]; exact hc
      simp [List.takeWhile_cons, hc, hd]

/-- The anchored marker pattern behaves identically on `tmEquiv`-related
inputs. -/
theorem matchMarkerAt_congr (m : List Char)
    (hm : ∀ p ∈ m, jsFold p ≠ '☳' ∧ jsFold p ≠ '☶')
    {l1 l2 : List Char} (h : List.Forall₂ tmEquiv l1 l2) :
    matchMarkerAt m l1 = matchMarkerAt m l2 := by
  rcases dropMarker_congr m hm l1 l2 h with ⟨h1, h2⟩ | ⟨r1, r2, h1, h2, hr⟩
  · simp [matchMarkerAt, h1, h2]
  · have hlen : r1.length = r2.length := hr.length_eq
    have hdw := dropWhile_space_congr hr
    have hdlen : (r1.dropWhile isSpaceChar).length =
        (r2.dropWhile isSpaceChar).length := hdw.length_eq
    have htw : (r1.dropWhile isSpaceChar).takeWhile isWordChar =
        (r2.dropWhile isSpaceChar).takeWhile isWordChar := takeWhile_word_congr hdw
    simp only [matchMarkerAt, h1, h2]
    rw [htw, hdlen, hlen]

/-- The leftmost marker search behaves identically on `tmEquiv`-related
inputs. -/
theorem findMarkerCapture_congr (m : List Char)
    (hm : ∀ p ∈ m, jsFold p ≠ '☳' ∧ jsFold p ≠ '☶')
    {l1 l2 : List Char} (h : List.Forall₂ tmEquiv l1 l2) :
    findMarkerCapture m l1 = findMarkerCapture m l2 := by
  induction h with
  | nil => rfl
  | @cons c d cs ds hcd htail ih =>
    have hmm := matchMarkerAt_congr m hm (List.Forall₂.cons hcd htail)
    simp only [findMarkerCapture]
    rw [hmm]
    cases hmc : matchMarkerAt m (d :: ds) with
    | some cap => rfl
    | none => simpa using ih

/-- `tmEquiv`-related trigram references render identical lines: this is
where the Thunder and Mountain rows of the table coincide. -/
theorem tmEquiv_lines {c d : Char} (h : tmEquiv c d) :
    slotLines (some (.trigram c)) = slotLines (some (.trigram d)) := by
  rcases h with rfl | ⟨rfl, rfl⟩ | ⟨rfl, rfl⟩ <;> rfl

/-- Filtering for trigram symbols preserves `tmEquiv`-relatedness. -/
theorem filter_trigram_congr {l1 l2 : List Char}
    (h : List.Forall₂ tmEquiv l1 l2) :
    List.Forall₂ tmEquiv (l1.filter isTrigramSymbol) (l2.filter isTrigramSymbol) := by
  induction h with
  | nil => exact List.Forall₂.nil
  | @cons c d cs ds hcd htail ih =>
    have hs := tmEquiv_isTrigramSymbol hcd
    by_cases hc : isTrigramSymbol c = true
    · have hd : isTrigramSymbol d = true := by rw [← hs]; exact hc
      simpa [List.filter_cons, hc, hd] using List.Forall₂.cons hcd ih
    · have hd : ¬isTrigramSymbol d = true := by rw [← hs]; exact hc
      simpa [List.filter_cons, hc, hd] using ih

/-- Parsing `tmEquiv`-related inputs yields slots with identical
rendered lines. -/
theorem parseTrigramList_congr {l1 l2 : List Char}
    (h : List.Forall₂ tmEquiv l1 l2) :
    slotLines (parseTrigramList l1).1 = slotLines (parseTrigramList l2).1 ∧
    slotLines (parseTrigramList l1).2 = slotLines (parseTrigramList l2).2 := by
  have hmu : ∀ p ∈ upperMarker, jsFold p ≠ '☳' ∧ jsFold p ≠ '☶' := by decide
  have hml : ∀ p ∈ lowerMarker, jsFold p ≠ '☳' ∧ jsFold p ≠ '☶' := by decide
  have hfu := findMarkerCapture_congr upperMarker hmu h
  have hfl := findMarkerCapture_congr lowerMarker hml h
  have hf := filter_trigram_congr h
  rcases hs1 : l1.filter isTrigramSymbol with _ | ⟨a, _ | ⟨b, r1⟩⟩
  · rw [hs1] at hf
    have hs2 : l2.filter isTrigramSymbol = [] := List.forall₂_nil_left_iff.mp hf
    constructor <;> simp [parseTrigramList, hs1, hs2, hfu, hfl]
  · rw [hs1] at hf
    obtain ⟨a2, t2, hab, htl, hl2⟩ := List.forall₂_cons_left_iff.mp hf
    have ht2 : t2 = [] := List.forall₂_nil_left_iff.mp htl
    subst ht2
    constructor <;> simp [parseTrigramList, hs1, hl2, hfu, hfl]
  · rw [hs1] at hf
    obtain ⟨a2, t2, hab, htl, hl2⟩ := List.forall₂_cons_left_iff.mp hf
    obtain ⟨b2, t2', hbb, _, hl2'⟩ := List.forall₂_cons_left_iff.mp htl
    subst hl2'
    constructor <;> simp [parseTrigramList, hs1, hl2]
    · exact tmEquiv_lines hab
    · exact tmEquiv_lines hbb

/-- C4: the static table maps the Thunder symbol and the Mountain symbol
to the identical triple [broken, broken, solid], so any two structure
descriptions that differ only by exchanging Thunder for Mountain (their
character lists are pointwise equal or Thunder/Mountain-swapped) render
the identical 6-line sequence. -/
theorem thunder_mountain_lines :
    TRIGRAM_LINES '☳' = some [false, false, true] ∧
    TRIGRAM_LINES '☶' = some [false, false, true] ∧
    ∀ s1 s2 : String, List.Forall₂ tmEquiv s1.toList s2.toList →
      allLines s1 = allLines s2 := by
  refine ⟨by decide, by decide, ?_⟩
  intro s1 s2 h
  have hp := parseTrigramList_congr h
  unfold allLines allLinesList
  rw [hp.1, hp.2]

/-- C4 witness: Thunder-over-Heaven and Mountain-over-Heaven render the
same lines. -/
theorem thunder_mountain_lines_witness :
    List.Forall₂ tmEquiv "☳☰".toList "☶☰".toList ∧
    allLines "☳☰" = allLines "☶☰" := by
  have h1 : "☳☰".toList = ['☳', '☰'] := by decide
  have h2 : "☶☰".toList = ['☶', '☰'] := by decide
  have hfor : List.Forall₂ tmEquiv "☳☰".toList "☶☰".toList := by
    rw [h1, h2]
    exact List.Forall₂.cons (Or.inr (Or.inl ⟨rfl, rfl⟩))
      (List.Forall₂.cons (Or.inl rfl) List.Forall₂.nil)
  exact ⟨hfor, thunder_mountain_lines.2.2 "☳☰" "☶☰" hfor⟩

end DreamSight
